import Mathlib

/-
Verification of the NL-to-answer query pipeline in `src/cap/api/nl_query.py`.

The Python module is shallowly embedded below.  Python `float` values are
modelled as exact rationals (`Rat`); Python machine strings as Lean `String`
(worked on through their `List Char` data); Python `dict`s as insertion-ordered
association lists; fallible operations as `Option`/`Except`.  External
collaborators (triplestore, language model, cache backend) are modelled as
explicit oracles supplied through an environment record, mirroring the spec's
contracts for them.  All scanners and parsers are written with explicit fuel so
that every definition is a total, executable `def`.
-/

set_option maxRecDepth 20000

namespace Cap

/-- A Python runtime value as it appears in the pipeline's bindings and in the
injection evaluator: `int`, `float` (modelled as an exact rational), `str`, or
`bool`.  Note that in Python `bool` is a subclass of `int`; the places where
this matters (`isinstance(value, (int, float))` checks) treat `.bool` as
numeric, as the source does. -/
inductive Value where
  | int (i : Int)
  | real (q : Rat)
  | str (s : String)
  | bool (b : Bool)
  deriving DecidableEq, Repr

/-- The `previous_results` dict of `_execute_sequential_queries`: an
insertion-ordered mapping from variable names to values (Python `dict`
semantics: overwriting keeps the original position, new keys append). -/
abbrev Bindings := List (String × Value)

/-- Python `dict.__setitem__`: overwrite in place, else append at the end. -/
def dictInsert (b : Bindings) (k : String) (v : Value) : Bindings :=
  match b with
  | [] => [(k, v)]
  | (k', v') :: rest => if k' = k then (k, v) :: rest else (k', v') :: dictInsert rest k v

/-- Python `dict.get` / `in` lookup. -/
def dictLookup (b : Bindings) (k : String) : Option Value :=
  match b with
  | [] => none
  | (k', v') :: rest => if k' = k then some v' else dictLookup rest k

/-- Python `k in dict`. -/
def dictMem (b : Bindings) (k : String) : Bool :=
  (dictLookup b k).isSome

/-- Boolean membership in a list of strings (Python `x in list`). -/
def strListMem (xs : List String) (x : String) : Bool :=
  match xs with
  | [] => false
  | y :: ys => if y = x then true else strListMem ys x

/-- `pat` is a prefix of `hay` (character-wise). -/
def listPre (pat hay : List Char) : Bool :=
  match pat, hay with
  | [], _ => true
  | _ :: _, [] => false
  | p :: ps, h :: hs => p == h && listPre ps hs

/-- Scan `hay` for an occurrence of `pat` (Python `pat in hay`). -/
def listHas (pat hay : List Char) : Bool :=
  match hay with
  | [] => listPre pat []
  | _ :: hs => listPre pat hay || listHas pat hs

/-- Python `pat in hay` on strings. -/
def hasSub (hay pat : String) : Bool :=
  listHas pat.data hay.data

/-- Python `hay.startswith(pat)` on strings. -/
def strStarts (hay pat : String) : Bool :=
  listPre pat.data hay.data

/-- Replace every occurrence of `pat` (scanning left to right, non-overlapping)
by `rep`, with fuel; model of Python `str.replace` with its default count.
An empty pattern is returned unchanged (the pipeline never substitutes an
empty variable name). -/
def listReplaceAll (fuel : Nat) (pat rep hay : List Char) : List Char :=
  match fuel, hay with
  | 0, h => h
  | _, [] => []
  | fuel + 1, c :: rest =>
    if listPre pat hay && !pat.isEmpty then
      rep ++ listReplaceAll fuel pat rep (hay.drop pat.length)
    else
      c :: listReplaceAll fuel pat rep rest

/-- Python `hay.replace(pat, rep)`. -/
def pyReplaceAll (hay pat rep : String) : String :=
  ⟨listReplaceAll (hay.data.length + 1) pat.data rep.data hay.data⟩

/-- Replace the first occurrence of `pat` by `rep`; model of Python
`hay.replace(pat, rep, 1)`. -/
def listReplaceFirst (fuel : Nat) (pat rep hay : List Char) : List Char :=
  match fuel, hay with
  | 0, h => h
  | _, [] => []
  | fuel + 1, c :: rest =>
    if listPre pat hay && !pat.isEmpty then
      rep ++ hay.drop pat.length
    else
      c :: listReplaceFirst fuel pat rep rest

/-- Python `hay.replace(pat, rep, 1)`. -/
def pyReplaceFirst (hay pat rep : String) : String :=
  ⟨listReplaceFirst (hay.data.length + 1) pat.data rep.data hay.data⟩

/-- Python whitespace for `str.strip()` / `float()` surrounding whitespace. -/
def isPyWs (c : Char) : Bool :=
  c == ' ' || c == '\t' || c == '\n' || c == '\r' || c == '\x0b' || c == '\x0c'

/-- Python `str.strip()`. -/
def pyStrip (s : String) : String :=
  ⟨(((s.data.dropWhile isPyWs).reverse.dropWhile isPyWs).reverse)⟩

/-- Decimal digits to a natural number. -/
def digitsToNat (ds : List Char) : Nat :=
  ds.foldl (fun n c => 10 * n + (c.toNat - 48)) 0

/-- Model of Python `float(raw)` restricted to finite decimal literals:
optional surrounding whitespace, optional sign, a digit string with optional
fractional part (`"5."` and `".5"` accepted, as in Python), and an optional
decimal exponent.  The special non-finite spellings (`inf`, `nan`) and digit
group underscores accepted by CPython are outside the numeric model (they are
not rational numbers / do not occur in triplestore literals) and parse as
`none` here. -/
def parsePyFloat (s : String) : Option Rat :=
  let cs := (s.data.dropWhile isPyWs).reverse.dropWhile isPyWs |>.reverse
  let (sgn, cs) : Rat × List Char :=
    match cs with
    | '+' :: r => (1, r)
    | '-' :: r => (-1, r)
    | r => (1, r)
  let ip := cs.takeWhile Char.isDigit
  let cs1 := cs.drop ip.length
  let (okMantissa, mant, cs2) : Bool × Rat × List Char :=
    match cs1 with
    | '.' :: r =>
      let fp := r.takeWhile Char.isDigit
      if ip.isEmpty && fp.isEmpty then (false, 0, cs1)
      else
        ((true : Bool),
         (digitsToNat ip : Rat) + (digitsToNat fp : Rat) / ((10 : Rat) ^ fp.length),
         r.drop fp.length)
    | _ =>
      if ip.isEmpty then (false, 0, cs1) else (true, (digitsToNat ip : Rat), cs1)
  if !okMantissa then none
  else
    match cs2 with
    | [] => some (sgn * mant)
    | e :: r =>
      if e == 'e' || e == 'E' then
        let (esgn, r1) : Bool × List Char :=
          match r with
          | '+' :: r' => (false, r')
          | '-' :: r' => (true, r')
          | r' => (false, r')
        let ed := r1.takeWhile Char.isDigit
        if ed.isEmpty || !(r1.drop ed.length).isEmpty then none
        else
          let p : Rat := (10 : Rat) ^ digitsToNat ed
          some (sgn * mant * (if esgn then 1 / p else p))
      else none

/-- Python `round(q)` with no `ndigits`: round half to even, returning an
integer.  (CPython's banker's rounding on the exact value.) -/
def pyRound (q : Rat) : Int :=
  if q - ((⌊q⌋ : Int) : Rat) < 1 / 2 then ⌊q⌋
  else if q - ((⌊q⌋ : Int) : Rat) > 1 / 2 then ⌊q⌋ + 1
  else if ⌊q⌋ % 2 = 0 then ⌊q⌋ else ⌊q⌋ + 1

/-- Python `int(q)` on a numeric value: truncation toward zero. -/
def pyTrunc (q : Rat) : Int :=
  if q < 0 then -(⌊-q⌋) else ⌊q⌋

/-- A word character of the lexical rule `[a-zA-Z0-9_]`. -/
def isWordChar (c : Char) : Bool :=
  c.isAlpha || c.isDigit || c == '_'

/-- Maximal runs of word characters in a character list. -/
def wordRuns (fuel : Nat) (cs : List Char) : List (List Char) :=
  match fuel, cs with
  | 0, _ => []
  | _, [] => []
  | fuel + 1, c :: rest =>
    if isWordChar c then
      let run := cs.takeWhile isWordChar
      run :: wordRuns fuel (cs.drop run.length)
    else wordRuns fuel rest

/-- Model of `re.findall(r"\b([a-zA-Z_][a-zA-Z0-9_]*)\b", expr)`: every match
of that pattern is a maximal run of word characters whose first character is a
letter or underscore (a digit-led run has no word boundary inside it), so the
two formulations agree. -/
def identifiers (s : String) : List String :=
  (wordRuns (s.data.length + 1) s.data).filterMap (fun r =>
    match r with
    | c :: _ => if c.isAlpha || c == '_' then some ((⟨r⟩ : String)) else none
    | [] => none)

/-- Leftmost match of `re.search(r"evaluate\(([^)]+)\)", expr)`, returning
capture group 1.  The scan tries each start position left to right; at a
position the greedy `[^)]+` must be non-empty and be followed by `)`. -/
def findEvaluateArg (fuel : Nat) (cs : List Char) : Option (List Char) :=
  match fuel, cs with
  | 0, _ => none
  | _, [] => none
  | fuel + 1, _ :: rest =>
    if listPre "evaluate(".data cs then
      let after := cs.drop 9
      let t := after.takeWhile (fun ch => ch != ')')
      if !t.isEmpty && listPre [')'] (after.drop t.length) then some t
      else findEvaluateArg fuel rest
    else findEvaluateArg fuel rest

/-- Anchored wrapper strip at the character-list level: succeeds when the text
is `pre ++ middle ++ ")"` with `middle` non-empty and newline-free, mirroring
`re.sub(r"^PRE\((.+)\)$", r"\1", s)` (the default `.` does not match a
newline). -/
def stripAnchoredCore (pre : String) (t : List Char) : Option (List Char) :=
  if listPre pre.data t ∧ t.getLast? = some ')' ∧ pre.data.length + 1 ≤ t.length then
    let mid := (t.drop pre.data.length).dropLast
    if mid.isEmpty || mid.contains '\n' then none else some mid
  else none

/-- Model of the anchored `re.sub(r"^PRE\((.+)\)$", r"\1", s)` call.  Python's
`$` also matches just before a single trailing newline, in which case the
newline survives the substitution. -/
def stripAnchored (pre : String) (s : String) : Option String :=
  match stripAnchoredCore pre s.data with
  | some m => some (⟨m⟩ : String)
  | none =>
    if s.data.getLast? = some '\n' then
      match stripAnchoredCore pre s.data.dropLast with
      | some m => some (⟨m ++ ['\n']⟩ : String)
      | none => none
    else none

/-- The unwrapping prelude of `_evaluate_injection` (nl_query.py lines
246-254): first the unanchored `evaluate(...)` extraction guarded by a
substring test, then the anchored `INJECT(...)`/`INJECT_FROM_PREVIOUS(...)`
strip, then the anchored `evaluate(...)` strip. -/
def unwrapMarker (expression : String) : String :=
  let e0 := if hasSub expression "evaluate(" then
      match findEvaluateArg (expression.data.length + 1) expression.data with
      | some g => (⟨g⟩ : String)
      | none => expression
    else expression
  let e1 :=
    match stripAnchored "INJECT_FROM_PREVIOUS(" e0 with
    | some m => m
    | none =>
      match stripAnchored "INJECT(" e0 with
      | some m => m
      | none => e0
  match stripAnchored "evaluate(" e1 with
  | some m => m
  | none => e1

/-- The function-name list of the missing-variable guard in
`_evaluate_injection` (line 261): note it omits `ceil` and `floor`. -/
def allowedEvalNames : List String :=
  ["int", "float", "round", "abs", "min", "max"]

/-- The allowed-function set named by the specification (and the key set of
the evaluator's `safe_dict` sandbox, lines 282-292), which includes `ceil`
and `floor`. -/
def specAllowedFunctions : List String :=
  ["int", "float", "round", "abs", "min", "max", "ceil", "floor"]

/-- The `missing_vars` computation of `_evaluate_injection` (lines 260-261):
identifiers of the unwrapped expression that are neither bindings keys nor in
the guard's function-name list. -/
def missingIdentifiers (expression : String) (previous_results : Bindings) : List String :=
  (identifiers (unwrapMarker expression)).filter
    (fun v => !dictMem previous_results v && !strListMem allowedEvalNames v)

/-- The apostrophe character, used for Python string quoting. -/
def quoteChar : Char := Char.ofNat 39

/-- Smallest `k ≤ 60` with `q * 10^k` integral, with that numerator. -/
def ratPow10Den (q : Rat) : Option (Nat × Int) :=
  (List.range 61).findSome? (fun k =>
    let m := q * (10 : Rat) ^ k
    if m.den = 1 then some (k, m.num) else none)

/-- Python `str` of a float, modelled for terminating decimals (the only
reals the pipeline constructs: quotients of decimal literals by powers of
ten).  Non-terminating rationals fall back to a fraction rendering. -/
def ratPyStr (q : Rat) : String :=
  match ratPow10Den q with
  | some (k, n) =>
    let ds := (toString n.natAbs).data
    let ds := if ds.length ≤ k then List.replicate (k + 1 - ds.length) '0' ++ ds else ds
    let head := ds.take (ds.length - k)
    let tail := ds.drop (ds.length - k)
    (if n < 0 then "-" else "") ++ (⟨head⟩ : String) ++
      (if k = 0 then ".0" else "." ++ (⟨tail⟩ : String))
  | none => toString q.num ++ "/" ++ toString q.den

/-- The literal spliced into the expression for one binding (lines 271-277):
`str(value)` for numerics (`bool` included, via `isinstance(value, (int,
float))`), a single-quoted rendering for text. -/
def pyStrOfValue : Value → String
  | .int i => toString i
  | .real q => ratPyStr q
  | .bool b => if b then "True" else "False"
  | .str s => (⟨[quoteChar]⟩ : String) ++ s ++ (⟨[quoteChar]⟩ : String)

/-- The substitution loop of `_evaluate_injection` (lines 271-277): for each
binding in dict order, if the name occurs as a substring of the current
expression, every occurrence is replaced by its literal rendering. -/
def substituteVars (expr0 : String) (previous_results : Bindings) : String :=
  previous_results.foldl
    (fun e kv => if hasSub e kv.1 then pyReplaceAll e kv.1 (pyStrOfValue kv.2) else e) expr0

/-- Tokens of the sandboxed expression language. -/
inductive Tok where
  | num (v : Value)
  | lit (s : String)
  | name (s : String)
  | lp
  | rp
  | comma
  | plus
  | minus
  | star
  | slash
  | dslash
  | percent
  deriving DecidableEq, Repr

/-- Lex a numeric literal (digits with optional fractional part; `5.` and
`.5` are floats, as in Python). -/
def lexNumTok (cs : List Char) : Tok × List Char :=
  let ip := cs.takeWhile Char.isDigit
  let r1 := cs.drop ip.length
  match r1 with
  | '.' :: r2 =>
    let fp := r2.takeWhile Char.isDigit
    (Tok.num (.real ((digitsToNat ip : Rat) + (digitsToNat fp : Rat) / (10 : Rat) ^ fp.length)),
     r2.drop fp.length)
  | _ => (Tok.num (.int (digitsToNat ip)), r1)

/-- Tokenizer for the sandboxed evaluator's input.  Anything outside the
modelled grammar lexes to `none`, which the evaluator treats as a failure
(Python raises a `SyntaxError` from `eval`, caught by the same handler). -/
def lexChars (fuel : Nat) (cs : List Char) : Option (List Tok) :=
  match fuel, cs with
  | 0, _ => none
  | _, [] => some []
  | fuel + 1, c :: rest =>
    if isPyWs c then lexChars fuel rest
    else if c.isDigit || (c == '.' && (rest.head?.elim false Char.isDigit)) then
      let (t, r) := lexNumTok cs
      (lexChars fuel r).map (t :: ·)
    else if c.isAlpha || c == '_' then
      let run := cs.takeWhile isWordChar
      (lexChars fuel (cs.drop run.length)).map (Tok.name (⟨run⟩ : String) :: ·)
    else if c == quoteChar then
      let body := rest.takeWhile (fun ch => ch != quoteChar)
      match rest.drop body.length with
      | _ :: r2 => (lexChars fuel r2).map (Tok.lit (⟨body⟩ : String) :: ·)
      | [] => none
    else if c == '+' then (lexChars fuel rest).map (Tok.plus :: ·)
    else if c == '-' then (lexChars fuel rest).map (Tok.minus :: ·)
    else if c == '*' then (lexChars fuel rest).map (Tok.star :: ·)
    else if c == '/' then
      match rest with
      | '/' :: r2 => (lexChars fuel r2).map (Tok.dslash :: ·)
      | _ => (lexChars fuel rest).map (Tok.slash :: ·)
    else if c == '%' then (lexChars fuel rest).map (Tok.percent :: ·)
    else if c == '(' then (lexChars fuel rest).map (Tok.lp :: ·)
    else if c == ')' then (lexChars fuel rest).map (Tok.rp :: ·)
    else if c == ',' then (lexChars fuel rest).map (Tok.comma :: ·)
    else none

/-- Numeric view of a value for Python arithmetic: `bool` coerces to 0/1, the
flag records whether the operand is a `float`. -/
def pyNumOf : Value → Option (Rat × Bool)
  | .int i => some ((i : Rat), false)
  | .real q => some (q, true)
  | .bool b => some ((if b then 1 else 0 : Rat), false)
  | .str _ => none

/-- Repack an arithmetic result: a `float` result stays real, an `int`
result (always integral by construction) becomes `.int`. -/
def mkNum (q : Rat) (isF : Bool) : Value :=
  if isF then .real q else .int q.num

/-- Python binary arithmetic on sandbox values: `+ - * / // %`, plus string
concatenation for `+`.  Division by zero raises in Python (caught by the
evaluator's handler) and is `none` here. -/
def pyArith (op : Tok) (a b : Value) : Option Value :=
  match op, a, b with
  | .plus, .str x, .str y => some (.str (x ++ y))
  | _, _, _ => do
    let pa ← pyNumOf a
    let pb ← pyNumOf b
    match op with
    | .plus => pure (mkNum (pa.1 + pb.1) (pa.2 || pb.2))
    | .minus => pure (mkNum (pa.1 - pb.1) (pa.2 || pb.2))
    | .star => pure (mkNum (pa.1 * pb.1) (pa.2 || pb.2))
    | .slash => if pb.1 = 0 then none else pure (.real (pa.1 / pb.1))
    | .dslash =>
      if pb.1 = 0 then none else pure (mkNum ((⌊pa.1 / pb.1⌋ : Int) : Rat) (pa.2 || pb.2))
    | .percent =>
      if pb.1 = 0 then none
      else pure (mkNum (pa.1 - pb.1 * ((⌊pa.1 / pb.1⌋ : Int) : Rat)) (pa.2 || pb.2))
    | _ => none

/-- Python `min`/`max` over at least two numeric arguments (first-wins on
ties, as CPython's strict comparison gives). -/
def pyMinMax (isMin : Bool) (vs : List Value) : Option Value :=
  match vs with
  | [] => none
  | v :: rest =>
    rest.foldl
      (fun acc w => do
        let a ← acc
        let pa ← pyNumOf a
        let pw ← pyNumOf w
        pure (if isMin then (if pw.1 < pa.1 then w else a) else (if pa.1 < pw.1 then w else a)))
      (some v)

/-- The callable entries of the evaluator's `safe_dict` (lines 282-292):
`int`, `float`, `round`, `abs`, `min`, `max`, `math.ceil`, `math.floor`.
Calls outside this table, or with unsupported arguments, fail (Python raises,
the handler returns the safe default). -/
def evalFn (f : String) (args : List Value) : Option Value :=
  match f, args with
  | "int", [v] => (pyNumOf v).map (fun p => .int (pyTrunc p.1))
  | "float", [v] => (pyNumOf v).map (fun p => .real p.1)
  | "round", [v] =>
    match v with
    | .int i => some (.int i)
    | .bool b => some (.int (if b then 1 else 0))
    | .real q => some (.int (pyRound q))
    | .str _ => none
  | "abs", [v] => (pyNumOf v).map (fun p => mkNum |p.1| p.2)
  | "min", vs => if vs.length < 2 then none else pyMinMax true vs
  | "max", vs => if vs.length < 2 then none else pyMinMax false vs
  | "ceil", [v] => (pyNumOf v).map (fun p => .int ⌈p.1⌉)
  | "floor", [v] => (pyNumOf v).map (fun p => .int ⌊p.1⌋)
  | _, _ => none

mutual

def parseExpr (fuel : Nat) (ts : List Tok) : Option (Value × List Tok) :=
  match fuel with
  | 0 => none
  | fuel + 1 => do
    let (v, ts1) ← parseTerm fuel ts
    parseExprTail fuel v ts1

def parseExprTail (fuel : Nat) (acc : Value) (ts : List Tok) : Option (Value × List Tok) :=
  match fuel with
  | 0 => none
  | fuel + 1 =>
    match ts with
    | .plus :: r => do
      let (v, ts1) ← parseTerm fuel r
      let a ← pyArith .plus acc v
      parseExprTail fuel a ts1
    | .minus :: r => do
      let (v, ts1) ← parseTerm fuel r
      let a ← pyArith .minus acc v
      parseExprTail fuel a ts1
    | _ => some (acc, ts)

def parseTerm (fuel : Nat) (ts : List Tok) : Option (Value × List Tok) :=
  match fuel with
  | 0 => none
  | fuel + 1 => do
    let (v, ts1) ← parseFactor fuel ts
    parseTermTail fuel v ts1

def parseTermTail (fuel : Nat) (acc : Value) (ts : List Tok) : Option (Value × List Tok) :=
  match fuel with
  | 0 => none
  | fuel + 1 =>
    match ts with
    | .star :: r => do
      let (v, ts1) ← parseFactor fuel r
      let a ← pyArith .star acc v
      parseTermTail fuel a ts1
    | .slash :: r => do
      let (v, ts1) ← parseFactor fuel r
      let a ← pyArith .slash acc v
      parseTermTail fuel a ts1
    | .dslash :: r => do
      let (v, ts1) ← parseFactor fuel r
      let a ← pyArith .dslash acc v
      parseTermTail fuel a ts1
    | .percent :: r => do
      let (v, ts1) ← parseFactor fuel r
      let a ← pyArith .percent acc v
      parseTermTail fuel a ts1
    | _ => some (acc, ts)

def parseFactor (fuel : Nat) (ts : List Tok) : Option (Value × List Tok) :=
  match fuel with
  | 0 => none
  | fuel + 1 =>
    match ts with
    | .minus :: r => do
      let (v, ts1) ← parseFactor fuel r
      let p ← pyNumOf v
      pure (mkNum (-p.1) p.2, ts1)
    | .num v :: r => some (v, r)
    | .lit s :: r => some (.str s, r)
    | .lp :: r => do
      let (v, ts1) ← parseExpr fuel r
      match ts1 with
      | .rp :: ts2 => pure (v, ts2)
      | _ => none
    | .name f :: .lp :: r => do
      let (args, ts1) ← parseArgs fuel r
      match ts1 with
      | .rp :: ts2 => do
        let v ← evalFn f args
        pure (v, ts2)
      | _ => none
    | _ => none

def parseArgs (fuel : Nat) (ts : List Tok) : Option (List Value × List Tok) :=
  match fuel with
  | 0 => none
  | fuel + 1 => do
    let (v, ts1) ← parseExpr fuel ts
    match ts1 with
    | .comma :: r => do
      let (vs, ts2) ← parseArgs fuel r
      pure (v :: vs, ts2)
    | _ => pure ([v], ts1)

end

/-- Model of `eval(expr, safe_dict, {})` (line 293): a total evaluator for the
sandbox's expression grammar — numeric and string literals, the eight
`safe_dict` functions, binary `+ - * / // %`, unary minus, parentheses.
Inputs outside the grammar (and Python runtime errors such as division by
zero, bad arguments, or a name lookup: every binding occurrence was already
substituted away, so a surviving name is a `NameError`) give `none`; the
caller's exception handlers map that to the safe default. -/
def sandboxEval (s : String) : Option Value := do
  let ts ← lexChars (s.data.length + 1) s.data
  match parseExpr (10 * ts.length + 10) ts with
  | some (v, []) => pure v
  | _ => none

/-- `_evaluate_injection` (nl_query.py lines 243-308).  The function is total:
every failure branch (missing identifiers, unparsable substituted expression,
sandboxed evaluation error) returns the safe default `1`, and a `float`
result is coerced with `int(round(result))` before being returned. -/
def evaluateInjection (expression : String) (previous_results : Bindings) : Value :=
  if !(missingIdentifiers expression previous_results).isEmpty then .int 1
  else
    match sandboxEval (substituteVars (unwrapMarker expression) previous_results) with
    | some (.real q) => .int (pyRound q)
    | some v => v
    | none => .int 1

/-- Greedily consume `(?:[^()]+|\([^()]*\))+` chunks, returning the consumed
characters and the remainder.  (No backtracking is needed: a chunk never ends
right before a `)` it could surrender, so the greedy parse is the regex
parse.) -/
def innerChunks (fuel : Nat) (cs : List Char) : List Char × List Char :=
  match fuel with
  | 0 => ([], cs)
  | fuel + 1 =>
    match cs with
    | '(' :: r =>
      let inner := r.takeWhile (fun c => c != '(' && c != ')')
      match r.drop inner.length with
      | ')' :: r2 =>
        let (c2, rest) := innerChunks fuel r2
        ('(' :: (inner ++ ')' :: c2), rest)
      | _ => ([], cs)
    | ')' :: _ => ([], cs)
    | [] => ([], cs)
    | _ =>
      let run := cs.takeWhile (fun c => c != '(' && c != ')')
      let (c2, rest) := innerChunks fuel (cs.drop run.length)
      (run ++ c2, rest)

/-- Try the executor's marker pattern with a fixed prefix at one position. -/
def matchInjectPrefixAt (pre : List Char) (cs : List Char) : Option (List Char) :=
  if listPre pre cs then
    let rest := cs.drop pre.length
    let (consumed, rest') := innerChunks (rest.length + 1) rest
    if consumed.isEmpty then none
    else
      match rest' with
      | ')' :: _ => some (pre ++ consumed ++ [')'])
      | _ => none
  else none

/-- The executor's marker pattern at one position:
`INJECT(?:_FROM_PREVIOUS)?\((?:[^()]+|\([^()]*\))+\)` (line 182), greedy
optional group first. -/
def matchInjectAt (cs : List Char) : Option (List Char) :=
  match matchInjectPrefixAt "INJECT_FROM_PREVIOUS(".data cs with
  | some m => some m
  | none => matchInjectPrefixAt "INJECT(".data cs

/-- Leftmost occurrence scan for the executor's marker pattern. -/
def findInjectScan (fuel : Nat) (cs : List Char) : Option (List Char) :=
  match fuel, cs with
  | 0, _ => none
  | _, [] => none
  | fuel + 1, _ :: rest =>
    match matchInjectAt cs with
    | some m => some m
    | none => findInjectScan fuel rest

/-- `re.search(inject_pattern, query)` of `_execute_sequential_queries`
(line 184), returning the matched substring. -/
def findInjectMarker (query : String) : Option String :=
  (findInjectScan (query.data.length + 1) query.data).map (fun m => (⟨m⟩ : String))

/-- `int(round(v))` on a numeric injected value (`isinstance(v, (int,
float))`, which a `bool` satisfies); `none` for text. -/
def pyRoundValue : Value → Option Int
  | .int i => some i
  | .real q => some (pyRound q)
  | .bool b => some (if b then 1 else 0)
  | .str _ => none

/-- The replacement literal computed in `_execute_sequential_queries` (lines
187-197): numerics are rounded to an integer and clamped to at least 1; other
values are spliced with `str(...)`. -/
def injectionReplacement (v : Value) : String :=
  match pyRoundValue v with
  | some r => toString (if r < 1 then (1 : Int) else r)
  | none =>
    match v with
    | .str s => s
    | .int i => toString i
    | .real q => ratPyStr q
    | .bool b => if b then "True" else "False"

/-- The injection loop of `_execute_sequential_queries` (lines 178-202): for
each recorded marker expression, evaluate it against the current bindings and
replace the first occurrence of the generic marker pattern in the query text;
if the pattern does not occur, the query is left unchanged. -/
def applyInjections (query : String) (inject_params : List String)
    (previous_results : Bindings) : String :=
  inject_params.foldl
    (fun q p =>
      let injectedValue := evaluateInjection p previous_results
      match findInjectMarker q with
      | some original => pyReplaceFirst q original (injectionReplacement injectedValue)
      | none => q)
    query

/-- One plan step as the pipeline represents it: the dicts
`{'query': ..., 'inject_params': [...]}` built by the legacy parser and
accepted from the cache / the language-model client. -/
structure QueryInfo where
  query : String
  inject_params : List String
  deriving DecidableEq, Repr

/-- A triplestore response, following the shapes the pipeline reads:
`{'results': {'bindings': rows}}` with each row a mapping from variable to a
cell whose `value` field is text, `{'boolean': b}`, or an empty/shapeless
payload (falsy or carrying neither key). -/
inductive Response where
  | tabular (rows : List (List (String × String)))
  | boolean (b : Bool)
  | empty
  deriving DecidableEq, Repr

/-- Python truthiness of the response dict: an empty dict is falsy, a dict
carrying a `results` or `boolean` key is truthy (even with zero rows). -/
def respTruthy : Response → Bool
  | .empty => false
  | _ => true

/-- The `result_count` computation of `natural_language_query` (lines
451-456 and 487-492): number of binding rows, or 1 for a boolean response. -/
def resultCount : Response → Nat
  | .tabular rows => rows.length
  | .boolean _ => 1
  | .empty => 0

/-- The numeric-parse-and-store step for one raw cell value (lines 220-231):
`float(raw)` succeeding with a whole value stores an `int`, a non-whole value
stores the `float`, a parse failure stores the text unchanged. -/
def classifyRaw (raw : String) : Value :=
  match parsePyFloat raw with
  | some q => if q.den = 1 then Value.int q.num else Value.real q
  | none => Value.str raw

/-- The binding-merge step of `_execute_sequential_queries` (lines 210-237):
a tabular response with rows merges every variable of the first row
(overwriting on collision); a boolean response binds the key `boolean`; an
empty tabular or shapeless response leaves the bindings unchanged. -/
def mergeResponse (prev : Bindings) (r : Response) : Bindings :=
  match r with
  | .tabular (row :: _) =>
    row.foldl (fun b kv => dictInsert b kv.1 (classifyRaw kv.2)) prev
  | .tabular [] => prev
  | .boolean b => dictInsert prev "boolean" (.bool b)
  | .empty => prev

/-- A transport error raised by the triplestore client. -/
abbrev TransportError := String

/-- The behaviour of `virtuoso.execute_query`, as an oracle from the call
index and the submitted query text to a response or a transport error. -/
abbrev Triplestore := Nat → String → Except TransportError Response

/-- `_execute_sequential_queries` (lines 163-241): steps run strictly in
order; each step first substitutes its injection markers against the current
bindings, then executes, then merges its response into the bindings before
the next step is considered.  A raised transport error propagates (aborting
the remaining steps); the final return is the last response, or the falsy
empty dict when no step produced one. -/
def execSeq (tsr : Triplestore) (idx : Nat) (queries : List QueryInfo)
    (previous_results : Bindings) (final_results : Option Response) :
    Except TransportError Response :=
  match queries with
  | [] => .ok (match final_results with | some r => r | none => .empty)
  | q :: rest =>
    match tsr idx (applyInjections q.query q.inject_params previous_results) with
    | .error e => .error e
    | .ok resp => execSeq tsr (idx + 1) rest (mergeResponse previous_results resp) (some resp)

/-- Match of the legacy separator `---query \d+[^-]*---` at one position,
returning the remainder after the match.  (`[^-]*` cannot surrender a dash,
so the greedy parse is the regex parse.) -/
def legacyMarkerAt (cs : List Char) : Option (List Char) :=
  if listPre "---query ".data cs then
    let r := cs.drop 9
    match r with
    | d :: _ =>
      if d.isDigit then
        let body := r.dropWhile (fun c => c != '-')
        if listPre "---".data body then some (body.drop 3) else none
      else none
    | [] => none
  else none

/-- Leftmost legacy separator: the part before it and the remainder after. -/
def findLegacyMarker (fuel : Nat) (acc cs : List Char) : Option (List Char × List Char) :=
  match fuel, cs with
  | 0, _ => none
  | _, [] => none
  | fuel + 1, c :: rest =>
    match legacyMarkerAt cs with
    | some after => some (acc.reverse, after)
    | none => findLegacyMarker fuel (c :: acc) rest

/-- `re.split(r"---query \d+[^-]*---", sparql_text)`. -/
def splitLegacy (fuel : Nat) (cs : List Char) : List (List Char) :=
  match fuel with
  | 0 => [cs]
  | fuel + 1 =>
    match findLegacyMarker (cs.length + 1) [] cs with
    | some (before, after) => before :: splitLegacy fuel after
    | none => [cs]

/-- Match of the legacy injection pattern `INJECT\([^)]+\)` at one position:
literally `INJECT(`, at least one non-`)` character, then `)`.  Note this
never matches an `INJECT_FROM_PREVIOUS(...)` occurrence (its `INJECT` is
followed by `_`, not `(`). -/
def injectAt (cs : List Char) : Option (List Char × List Char) :=
  if listPre "INJECT(".data cs then
    let r := cs.drop 7
    let t := r.takeWhile (fun c => c != ')')
    if !t.isEmpty then
      match r.drop t.length with
      | ')' :: rest => some ("INJECT(".data ++ (t ++ [')']), rest)
      | _ => none
    else none
  else none

/-- `re.findall(r"INJECT\([^)]+\)", part)`: leftmost, non-overlapping. -/
def injectScan (fuel : Nat) (cs : List Char) : List String :=
  match fuel, cs with
  | 0, _ => []
  | _, [] => []
  | fuel + 1, _ :: rest =>
    match injectAt cs with
    | some (m, after) => (⟨m⟩ : String) :: injectScan fuel after
    | none => injectScan fuel rest

/-- The legacy marker extraction applied to one step body. -/
def injectFindAll (s : String) : List String :=
  injectScan (s.data.length + 1) s.data

/-- `_parse_cached_sequential_sparql` (nl_query.py lines 140-161): split on
the legacy separators, drop the leading part, strip each remaining part, skip
empty parts and parts starting with `---`, and record the `INJECT\([^)]+\)`
matches of each kept part as its injection parameters. -/
def parseCachedSequentialSparql (sparql_text : String) : List QueryInfo :=
  let parts := splitLegacy (sparql_text.data.length + 1) sparql_text.data
  (parts.drop 1).filterMap (fun p =>
    let part : String := pyStrip (⟨p⟩ : String)
    if part = "" || strStarts part "---" then none
    else some ⟨part, injectFindAll part⟩)

/-- Hexadecimal digit (lowercase), for JSON `\uXXXX` escapes. -/
def hexDigit (n : Nat) : Char :=
  if n < 10 then Char.ofNat (48 + n) else Char.ofNat (87 + n)

/-- Per-character JSON escaping of `json.dumps` with its default
`ensure_ascii=True`: quote, backslash and the named control escapes, `\uXXXX`
for other control characters and for all non-ASCII characters (code points
beyond the basic multilingual plane, which Python writes as surrogate pairs,
are outside this model). -/
def jsonEscapeChar (c : Char) : List Char :=
  if c == '"' then ['\\', '"']
  else if c == '\\' then ['\\', '\\']
  else if c == '\n' then ['\\', 'n']
  else if c == '\t' then ['\\', 't']
  else if c == '\r' then ['\\', 'r']
  else if c.toNat == 8 then ['\\', 'b']
  else if c.toNat == 12 then ['\\', 'f']
  else if c.toNat < 32 || c.toNat > 127 then
    ['\\', 'u', hexDigit (c.toNat / 4096 % 16), hexDigit (c.toNat / 256 % 16),
     hexDigit (c.toNat / 16 % 16), hexDigit (c.toNat % 16)]
  else [c]

/-- A JSON string literal for `s`. -/
def jsonStrLit (s : String) : List Char :=
  '"' :: (s.data.flatMap jsonEscapeChar) ++ ['"']

/-- Join with `", "`, the default item separator of `json.dumps`. -/
def commaJoin (ss : List (List Char)) : List Char :=
  List.intercalate [',', ' '] ss

/-- The opening brace character (written numerically, as it only ever occurs
inside generated JSON text). -/
def lbrace : Char := Char.ofNat 123

/-- The closing brace character. -/
def rbrace : Char := Char.ofNat 125

/-- `json.dumps` of one step dict, keys in their insertion order. -/
def jsonObjOfQuery (q : QueryInfo) : List Char :=
  lbrace :: ("\"query\": ".data ++ jsonStrLit q.query ++ ", \"inject_params\": [".data ++
    commaJoin (q.inject_params.map jsonStrLit) ++ [']', rbrace])

/-- `json.dumps(sparql_queries)` (line 467): the canonical structured (JSON
list) serialization of a sequential plan. -/
def jsonDumpsQueries (qs : List QueryInfo) : String :=
  ⟨'[' :: commaJoin (qs.map jsonObjOfQuery) ++ [']']⟩

/-- JSON whitespace skip. -/
def skipJsonWs (cs : List Char) : List Char :=
  cs.dropWhile (fun c => c == ' ' || c == '\t' || c == '\n' || c == '\r')

/-- Hex digit value. -/
def hexVal (c : Char) : Option Nat :=
  if c.isDigit then some (c.toNat - 48)
  else if 'a' ≤ c ∧ c ≤ 'f' then some (c.toNat - 87)
  else if 'A' ≤ c ∧ c ≤ 'F' then some (c.toNat - 55)
  else none

/-- JSON string body after the opening quote: decoded characters plus the
remainder after the closing quote. -/
def parseJStringBody (fuel : Nat) (cs : List Char) : Option (List Char × List Char) :=
  match fuel, cs with
  | 0, _ => none
  | _, [] => none
  | fuel + 1, c :: rest =>
    if c == '"' then some ([], rest)
    else if c == '\\' then
      match rest with
      | [] => none
      | e :: rest' =>
        let dec : Option (Char × List Char) :=
          if e == '"' then some ('"', rest')
          else if e == '\\' then some ('\\', rest')
          else if e == '/' then some ('/', rest')
          else if e == 'n' then some ('\n', rest')
          else if e == 't' then some ('\t', rest')
          else if e == 'r' then some ('\r', rest')
          else if e == 'b' then some (Char.ofNat 8, rest')
          else if e == 'f' then some (Char.ofNat 12, rest')
          else if e == 'u' then
            match rest' with
            | h1 :: h2 :: h3 :: h4 :: rest'' => do
              let a ← hexVal h1
              let b ← hexVal h2
              let c3 ← hexVal h3
              let d ← hexVal h4
              pure (Char.ofNat (4096 * a + 256 * b + 16 * c3 + d), rest'')
            | _ => none
          else none
        match dec with
        | some (ch, rs) => (parseJStringBody fuel rs).map (fun p => (ch :: p.1, p.2))
        | none => none
    else (parseJStringBody fuel rest).map (fun p => (c :: p.1, p.2))

/-- Expect a literal after optional whitespace. -/
def expectLit (lit : List Char) (cs : List Char) : Option (List Char) :=
  let cs := skipJsonWs cs
  if listPre lit cs then some (cs.drop lit.length) else none

/-- Parse a JSON string after optional whitespace. -/
def parseJString (fuel : Nat) (cs : List Char) : Option (String × List Char) :=
  match skipJsonWs cs with
  | '"' :: r => (parseJStringBody fuel r).map (fun p => ((⟨p.1⟩ : String), p.2))
  | _ => none

/-- Parse a JSON array of strings (after its opening bracket). -/
def parseJStringItems (fuel : Nat) (cs : List Char) : Option (List String × List Char) :=
  match fuel with
  | 0 => none
  | fuel + 1 =>
    match skipJsonWs cs with
    | ']' :: r => some ([], r)
    | _ => do
      let (s, cs1) ← parseJString (cs.length + 1) cs
      match skipJsonWs cs1 with
      | ',' :: r => do
        let (ss, cs2) ← parseJStringItems fuel r
        if ss.isEmpty then none else pure (s :: ss, cs2)
      | ']' :: r => pure ([s], r)
      | _ => none

/-- Parse one step object of the canonical payload shape. -/
def parseJQueryObj (cs : List Char) : Option (QueryInfo × List Char) := do
  let cs1 ← expectLit [lbrace] cs
  let cs2 ← expectLit "\"query\"".data cs1
  let cs3 ← expectLit [':'] cs2
  let (q, cs4) ← parseJString (cs3.length + 1) cs3
  let cs5 ← expectLit [','] cs4
  let cs6 ← expectLit "\"inject_params\"".data cs5
  let cs7 ← expectLit [':'] cs6
  let cs8 ← expectLit ['['] cs7
  let (ps, cs9) ← parseJStringItems (cs8.length + 1) cs8
  let cs10 ← expectLit [rbrace] cs9
  pure (⟨q, ps⟩, cs10)

/-- Parse the items of a canonical payload list (after its opening bracket). -/
def parseJQueryItems (fuel : Nat) (cs : List Char) : Option (List QueryInfo × List Char) :=
  match fuel with
  | 0 => none
  | fuel + 1 =>
    match skipJsonWs cs with
    | ']' :: r => some ([], r)
    | _ => do
      let (q, cs1) ← parseJQueryObj cs
      match skipJsonWs cs1 with
      | ',' :: r => do
        let (qs, cs2) ← parseJQueryItems fuel r
        if qs.isEmpty then none else pure (q :: qs, cs2)
      | ']' :: r => pure ([q], r)
      | _ => none

/-- Model of `json.loads(cached_sparql)` restricted to the canonical payload
shape the pipeline itself writes: a JSON list of objects with a `query`
string and an `inject_params` string list (in that key order).  Other JSON
documents are outside the model and return `none` (for the branch decision
this conflates "JSON but not a list" with "not JSON": the two differ in the
source only for exotic cache contents the pipeline never writes). -/
def jsonLoadsCanonical (s : String) : Option (List QueryInfo) :=
  match skipJsonWs s.data with
  | '[' :: r => do
    let (qs, rest) ← parseJQueryItems (r.length + 1) r
    if (skipJsonWs rest).isEmpty then pure qs else none
  | _ => none

/-- Split a character list into lines at newline characters. -/
def splitAtNewlines (fuel : Nat) (cs : List Char) : List (List Char) :=
  match fuel with
  | 0 => [cs]
  | fuel + 1 =>
    let line := cs.takeWhile (fun c => c != '\n')
    match cs.drop line.length with
    | _ :: rest => line :: splitAtNewlines fuel rest
    | [] => [line]

/-- Leftmost occurrence of one of the four top-level SPARQL form keywords,
returning the text from the keyword on. -/
def findSparqlForm (fuel : Nat) (cs : List Char) : Option (List Char) :=
  match fuel, cs with
  | 0, _ => none
  | _, [] => none
  | fuel + 1, _ :: rest =>
    if listPre "SELECT".data cs || listPre "ASK".data cs ||
        listPre "CONSTRUCT".data cs || listPre "DESCRIBE".data cs then some cs
    else findSparqlForm fuel rest

/-- Modelled from the spec: `OllamaClient.detect_and_parse_sparql` lives in
the language-model client, which is not among the provided sources (only its
caller in nl_query.py is).  Spec §4.2: after stripping code fences, a
response parsing as an ordered sequence of objects each carrying a SPARQL
body is Sequential; otherwise a response containing a top-level SPARQL form
(`SELECT`, `ASK`, `CONSTRUCT`, `DESCRIBE`) is Single with body the extracted
SPARQL, the remainder of the response being discarded; otherwise the result
is empty (an empty body).  Fence stripping is modelled as dropping the fence
lines. -/
def detectAndParseSparql (raw : String) : Bool × List QueryInfo × String :=
  let kept := (splitAtNewlines (raw.data.length + 1) raw.data).filter
    (fun l => !listPre "```".data l)
  let sr : String := ⟨List.intercalate ['\n'] kept⟩
  match jsonLoadsCanonical sr with
  | some (q :: qs) => (true, q :: qs, "")
  | _ =>
    match findSparqlForm (sr.data.length + 1) sr.data with
    | some tail => (false, [], (⟨tail⟩ : String))
    | none => (false, [], "")

/-- `StatusMessage.processing_query()`. -/
def processing_query : String := "status: Processing your query\n"

/-- `StatusMessage.generating_sparql()`. -/
def generating_sparql : String := "status: Analyzing contexts in the knowledge graph\n"

/-- `StatusMessage.executing_query()`. -/
def executing_query : String := "status: Fetching contextual data from knowledge graph\n"

/-- `StatusMessage.no_results()`. -/
def no_results : String := "status: No context found, thinking more\n"

/-- `StatusMessage.processing_results()`. -/
def processing_results : String := "status: Analyzing context and preparing answer\n"

/-- `StatusMessage.no_data()`. -/
def no_data : String := "I do not have this information yet.\n"

/-- `StatusMessage.data_done()`. -/
def data_done : String := "data: [DONE]\n"

/-- `StatusMessage.error(message)` (lines 82-84): note the capital-E
`Error: ` prefix. -/
def statusError (message : String) : String :=
  "Error: " ++ message ++ "\n"

/-- An error frame as the orchestrator yields it: `yield f"{error_msg}\n"`
appends a second newline to the `StatusMessage.error` text. -/
def errFrame (message : String) : String :=
  statusError message ++ "\n"

/-- `StatusMessage.THINKING_MESSAGES` (lines 38-47), in listed order. -/
def thinkingMessages : List String :=
  ["status: Analyzing your query deeply\n",
   "status: Exploring the knowledge graph\n",
   "status: Finding relevant connections\n",
   "status: Processing complex relationships\n",
   "status: Gathering comprehensive data\n",
   "status: Cross-referencing information\n",
   "status: Validating query results\n",
   "status: Optimizing data retrieval\n"]

/-- The default stall window of `_stream_with_timeout_messages`
(`timeout_seconds: float = 300.0`), in seconds; the orchestrator's call site
(line 544) passes the same value. -/
def defaultTimeoutSeconds : Nat := 300

/-- One observable event at the multiplexer's wait: either the next upstream
chunk arrived within the stall window, or the window elapsed with no
downstream emission (`asyncio.TimeoutError`).  The wall clock is abstracted
into this event alphabet: a `timeout` event occurs exactly when
`timeout_seconds` have passed since the last downstream emission, and
receiving a chunk resets that clock. -/
inductive MuxEvent where
  | chunk (s : String)
  | timeout
  deriving DecidableEq, Repr

/-- One downstream frame of the multiplexer, tagged by provenance. -/
inductive MuxFrame where
  | chunk (s : String)
  | heartbeat (s : String)
  deriving DecidableEq, Repr

/-- `_stream_with_timeout_messages` (lines 87-124) as a transition system
over its wait events: a chunk is forwarded unchanged; a timeout emits the
next message of the `cycle(THINKING_MESSAGES)` iterator and advances the
rotation cursor.  The run ends when the upstream ends
(`StopAsyncIteration`). -/
def muxRun (events : List MuxEvent) (cursor : Nat) : List MuxFrame :=
  match events with
  | [] => []
  | .chunk s :: es => .chunk s :: muxRun es cursor
  | .timeout :: es =>
    .heartbeat (thinkingMessages.getD (cursor % thinkingMessages.length) "") ::
      muxRun es (cursor + 1)

/-- The chunks of a frame list, in order. -/
def muxChunks : List MuxFrame → List String
  | [] => []
  | .chunk s :: fs => s :: muxChunks fs
  | .heartbeat _ :: fs => muxChunks fs

/-- The heartbeats of a frame list, in order. -/
def muxHeartbeats : List MuxFrame → List String
  | [] => []
  | .heartbeat s :: fs => s :: muxHeartbeats fs
  | .chunk _ :: fs => muxHeartbeats fs

/-- The chunks of an event trace, in order. -/
def eventChunks : List MuxEvent → List String
  | [] => []
  | .chunk s :: es => s :: eventChunks es
  | .timeout :: es => eventChunks es

/-- The number of stall-window expiries in an event trace. -/
def countTimeouts : List MuxEvent → Nat
  | [] => 0
  | .timeout :: es => countTimeouts es + 1
  | .chunk _ :: es => countTimeouts es

/-- The environment of one `response_stream` run: the request's effective
query, the outcomes of every external call the orchestrator makes.
`cacheExc` models an exception raised before stage 1 proper (client
construction or the cache lookup), reaching the outer handler.
`contextualizeSetup` models stage 3: an error is an exception raised while
shaping the results or opening the context stream
(`convert_sparql_to_kv` / `format_for_llm` live outside the provided
sources); a success carries the frames produced by iterating
`_stream_with_timeout_messages` over the context stream (cache writes are
modelled as non-raising). -/
structure PipelineEnv where
  userQuery : String
  cacheExc : Option String
  cached : Option String
  llm : Except String String
  tsr : Triplestore
  contextualizeSetup : Except String (List String)

/-- The observable outcome of one `response_stream` run: the yielded frames
in order, and the cache writes (key, payload) performed. -/
structure PipelineOut where
  frames : List String
  cacheWrites : List (String × String)
  deriving DecidableEq, Repr

/-- The stage-1 classification result. -/
inductive Stage1 where
  | sequential (qs : List QueryInfo)
  | single (s : String)
  deriving DecidableEq, Repr

/-- Stage 1 of `natural_language_query` (lines 382-441): a cache hit is
parsed as canonical JSON, else as a legacy delimited sequence when it carries
a `---split`/`---query` marker, else kept as a single SPARQL string; a cache
miss emits the generating status and consults the language model, whose
response is handed to `detect_and_parse_sparql` only when it contains the
substring `SELECT` (an LLM exception, or a response without `SELECT`,
classifies as a single empty query). -/
def stage1Classify (cached : Option String) (llm : Except String String) :
    Stage1 × List String :=
  match cached with
  | some cs =>
    (match jsonLoadsCanonical cs with
     | some qs =>
       if 0 < qs.length then Stage1.sequential qs else Stage1.single cs
     | none =>
       if hasSub cs "---split" || hasSub cs "---query" then
         Stage1.sequential (parseCachedSequentialSparql cs)
       else Stage1.single cs,
     [])
  | none =>
    (match llm with
     | .error _ => Stage1.single ""
     | .ok raw =>
       if hasSub raw "SELECT" then
         match detectAndParseSparql raw with
         | (true, qs, _) => Stage1.sequential qs
         | (false, _, s) => Stage1.single s
       else Stage1.single "",
     [generating_sparql])

/-- Stage 3 of `natural_language_query` (lines 524-554): emit the
processing-results status; on success stream each chunk as `f"{chunk}\n"`;
on a shaping/contextualization exception yield the
`Error generating answer: ...` frame; either way finish with the completion
signal.  The unused arguments mirror the values handed to the language
model. -/
def stage3 (env : PipelineEnv) (fpre : List String) (writes : List (String × String))
    ( _results : Option Response) ( _sparqlQuery : String) : PipelineOut :=
  match env.contextualizeSetup with
  | .ok chunks =>
    ⟨fpre ++ [processing_results] ++ chunks.map (fun c => c ++ "\n") ++ [data_done], writes⟩
  | .error m =>
    ⟨fpre ++ [processing_results] ++ [errFrame ("Error generating answer: " ++ m)] ++
      [data_done], writes⟩

/-- `response_stream` of `natural_language_query` (lines 360-560).  Stage 2
for a sequential plan (lines 445-477): on success with a truthy result dict,
zero rows emit the no-results status and a non-zero count caches the plan as
`json.dumps(sparql_queries)`; a falsy result yields no-data and the terminal
marker; a transport error clears `is_sequential` and falls through to stage 3
with null results.  Stage 2 for a single query (lines 479-516): an empty
query text short-circuits to no-data; a transport error yields no-data and
the terminal marker; otherwise as for sequential, with the query text cached.
The outer handler (lines 556-560) turns any earlier exception into an
`Unexpected error: ...` frame plus the terminal marker. -/
def responseStream (env : PipelineEnv) : PipelineOut :=
  match env.cacheExc with
  | some m => ⟨[processing_query, errFrame ("Unexpected error: " ++ m), data_done], []⟩
  | none =>
    match stage1Classify env.cached env.llm with
    | (Stage1.sequential qs, f1) =>
      let f := processing_query :: f1 ++ [executing_query]
      match execSeq env.tsr 0 qs [] none with
      | .ok resp =>
        if respTruthy resp then
          if resultCount resp = 0 then
            stage3 env (f ++ [no_results]) [] (some resp) (jsonDumpsQueries qs)
          else
            stage3 env f [(env.userQuery, jsonDumpsQueries qs)] (some resp)
              (jsonDumpsQueries qs)
        else ⟨f ++ [no_data, data_done], []⟩
      | .error _ => stage3 env f [] none ""
    | (Stage1.single s, f1) =>
      if s = "" then ⟨processing_query :: f1 ++ [no_data, data_done], []⟩
      else
        let f := processing_query :: f1 ++ [executing_query]
        match env.tsr 0 s with
        | .ok resp =>
          if resultCount resp = 0 then
            stage3 env (f ++ [no_results]) [] (some resp) s
          else
            stage3 env f [(env.userQuery, s)] (some resp) s
        | .error _ => ⟨f ++ [no_data, data_done], []⟩

/-- The HTTP status of the `StreamingResponse` the endpoint returns: FastAPI's
default `status_code=200` (no explicit status is passed at lines 562-570),
unchanged once the body stream has begun. -/
def streamingStatusCode : Nat := 200

/-- Whether a value is a Python `float` (`isinstance(v, float)`). -/
def isRealValue : Value → Bool
  | .real _ => true
  | _ => false

/-- Numeric reading of a value under `isinstance(v, (int, float))` (which a
`bool` satisfies), as an exact rational. -/
def valueNumQ : Value → Option Rat
  | .int i => some ((i : Rat))
  | .real q => some q
  | .bool b => some ((if b then 1 else 0 : Rat))
  | .str _ => none

/-- Scenario environment: a cached legacy sequential plan whose only step
fails with a triplestore transport error, contextualization succeeding with
one chunk. -/
def envSeqTransport : PipelineEnv :=
  ⟨"q", none, some "---query 1---\nSELECT x", Except.error "unused",
   fun _ _ => Except.error "transport", Except.ok ["ans"]⟩

/-- Scenario environment: a cached legacy sequential plan whose only step
succeeds with a tabular response of zero rows. -/
def envSeqEmptyRows : PipelineEnv :=
  ⟨"q", none, some "---query 1---\nSELECT x", Except.error "unused",
   fun _ _ => Except.ok (Response.tabular []), Except.ok ["ans"]⟩

/-- Scenario environment: a cached legacy sequential plan whose only step
succeeds with one row. -/
def envSeqOneRow : PipelineEnv :=
  ⟨"q", none, some "---query 1---\nSELECT x", Except.error "unused",
   fun _ _ => Except.ok (Response.tabular [[("n", "412")]]), Except.ok ["ans"]⟩

/-- Scenario environment: an exception (`boom`) raised before stage 1,
reaching the outer handler. -/
def envOuterBoom : PipelineEnv :=
  ⟨"q", some "boom", none, Except.error "x",
   fun _ _ => Except.ok Response.empty, Except.ok []⟩

/-- Scenario environment: a cached single query whose execution succeeds but
whose contextualization setup raises `ctxfail`. -/
def envCtxBoom : PipelineEnv :=
  ⟨"q", none, some "SELECT ?x", Except.error "unused",
   fun _ _ => Except.ok (Response.boolean true), Except.error "ctxfail"⟩

/-- Scenario environment: a cache miss where the language model returns a
response containing the top-level form `ASK` but not the substring
`SELECT`. -/
def envAskOnly : PipelineEnv :=
  ⟨"q", none, none, Except.ok "ASK WHETHER ANYTHING EXISTS",
   fun _ _ => Except.ok Response.empty, Except.ok []⟩

/-- The triplestore oracle of the C5 witness scenario. -/
def tsrOneRow : Triplestore :=
  fun _ _ => Except.ok (Response.tabular [[("n", "412")]])

/-- `strListMem` agrees with list membership. -/
theorem strListMem_iff (xs : List String) (x : String) :
    strListMem xs x = true ↔ x ∈ xs := by
  induction xs with
  | nil => simp [strListMem]
  | cons y ys ih =>
    by_cases h : y = x
    · subst h; simp [strListMem]
    · have hne : x ≠ y := fun hk => h hk.symm
      simp [strListMem, h, ih, List.mem_cons, hne]

/-- The guard's function-name list is contained in the specification's
allowed-function set. -/
theorem allowedEval_sub_spec (x : String) (h : x ∈ allowedEvalNames) :
    x ∈ specAllowedFunctions := by
  simp only [allowedEvalNames, List.mem_cons, List.not_mem_nil, or_false] at h
  rcases h with h | h | h | h | h | h <;> simp [specAllowedFunctions, h]

/-- An identifier that is neither a bindings key nor in the specification's
allowed-function set appears among the guard's missing identifiers. -/
theorem mem_missingIdentifiers (expr : String) (prev : Bindings) (id : String)
    (h1 : id ∈ identifiers (unwrapMarker expr))
    (h2 : dictMem prev id = false)
    (h3 : id ∉ specAllowedFunctions) :
    id ∈ missingIdentifiers expr prev := by
  refine List.mem_filter.mpr ⟨h1, ?_⟩
  have ha : strListMem allowedEvalNames id = false := by
    rcases hb : strListMem allowedEvalNames id with _ | _
    · rfl
    · exact absurd (allowedEval_sub_spec id ((strListMem_iff _ _).mp hb)) h3
  simp [h2, ha]

/-- A non-empty missing-identifier list makes the evaluator return the safe
default 1. -/
theorem evaluateInjection_of_missing (expr : String) (prev : Bindings)
    (h : missingIdentifiers expr prev ≠ []) :
    evaluateInjection expr prev = .int 1 := by
  have he : (missingIdentifiers expr prev).isEmpty = false := by
    cases hmi : missingIdentifiers expr prev with
    | nil => exact absurd hmi h
    | cons a l => rfl
  simp [evaluateInjection, he]

/-- `pyRound` of a value below 1 never exceeds 1. -/
theorem pyRound_le_one (q : Rat) (h : q < 1) : pyRound q ≤ 1 := by
  have hf : ⌊q⌋ ≤ 0 := by
    have h1 : ⌊q⌋ < (1 : Int) := by
      rw [Int.floor_lt]
      exact_mod_cast h
    omega
  unfold pyRound
  split_ifs <;> omega

/-- C4: the specification lists `ceil` and `floor` in the allowed-function
set, and the evaluator's own `safe_dict` sandbox defines them, but the
missing-identifier guard list at line 261 omits them, so an expression
applying `ceil` to a bound variable takes the missing-identifier default path
and returns 1 instead of being substituted and evaluated (which the sandbox
itself would compute, as the last conjunct shows). -/
theorem c4_ceil_guard_bug :
    evaluateInjection "INJECT(ceil(total))" [("total", Value.int 7)] = Value.int 1
    ∧ "ceil" ∈ specAllowedFunctions
    ∧ dictMem [("total", Value.int 7)] "total" = true
    ∧ "ceil" ∉ allowedEvalNames
    ∧ evalFn "ceil" [Value.int 7] = some (Value.int 7) := by
  refine ⟨by with_unfolding_all decide, by decide, by decide, by decide,
    by with_unfolding_all decide⟩

/-- C10: injection evaluation is total and never yields a `float`: the result
carries no `.real` value (a real-valued sandbox result is coerced with
`int(round(...))` first), and both failure branches — missing identifiers and
a failed sandboxed evaluation of the substituted expression — return the
integer 1.  Totality itself is inherent: `evaluateInjection` is a total Lean
function covering every branch of the Python source, whose handlers catch
every exception of the evaluation. -/
theorem c10_injection_total (expression : String) (previous_results : Bindings) :
    isRealValue (evaluateInjection expression previous_results) = false
    ∧ (missingIdentifiers expression previous_results ≠ [] →
        evaluateInjection expression previous_results = .int 1)
    ∧ (sandboxEval (substituteVars (unwrapMarker expression) previous_results) = none →
        evaluateInjection expression previous_results = .int 1) := by
  refine ⟨?_, fun h => evaluateInjection_of_missing _ _ h, ?_⟩
  · by_cases hm : (missingIdentifiers expression previous_results).isEmpty
    · cases hs : sandboxEval (substituteVars (unwrapMarker expression) previous_results) with
      | none => simp [evaluateInjection, hm, hs, isRealValue]
      | some v => cases v <;> simp [evaluateInjection, hm, hs, isRealValue]
    · simp only [Bool.not_eq_true] at hm
      simp [evaluateInjection, hm, isRealValue]
  · intro hs
    by_cases hm : (missingIdentifiers expression previous_results).isEmpty
    · simp [evaluateInjection, hm, hs]
    · simp only [Bool.not_eq_true] at hm
      simp [evaluateInjection, hm]

/-- Witness for C10 at a concrete input: the expression references the
unbound identifier `zzz`, so the missing-identifier branch fires and the
safe default 1 (not a float) is returned. -/
theorem c10_injection_total_witness :
    missingIdentifiers "INJECT(zzz)" [] ≠ []
    ∧ evaluateInjection "INJECT(zzz)" [] = .int 1
    ∧ isRealValue (evaluateInjection "INJECT(zzz)" []) = false :=
  ⟨by with_unfolding_all decide,
   (c10_injection_total "INJECT(zzz)" []).2.1 (by with_unfolding_all decide),
   (c10_injection_total "INJECT(zzz)" []).1⟩

/-- Integer rendering of 1. -/
theorem toString_int_one : toString (1 : Int) = "1" := by
  with_unfolding_all decide

/-- The executor's clamp: a rounded value at most 1 renders as `"1"`. -/
theorem clamp_literal_one (r : Int) (h : r ≤ 1) :
    toString (if r < 1 then (1 : Int) else r) = "1" := by
  rcases lt_or_eq_of_le h with h1 | h1
  · rw [if_pos h1, toString_int_one]
  · subst h1
    rw [if_neg (lt_irrefl 1), toString_int_one]

/-- C1: for a marker that is substituted into a step's SPARQL body (the
executor found a marker occurrence), if the evaluated value is numeric and
below 1, or the expression references an identifier that is neither a
bindings key nor an allowed function, or the sandboxed evaluation fails, the
substituted literal is exactly the integer 1. -/
theorem c1_injection_clamping (expr : String) (prev : Bindings) (query orig : String)
    (hm : findInjectMarker query = some orig)
    (h : (∃ q, valueNumQ (evaluateInjection expr prev) = some q ∧ q < 1)
       ∨ (∃ id, id ∈ identifiers (unwrapMarker expr) ∧ dictMem prev id = false ∧
            id ∉ specAllowedFunctions)
       ∨ sandboxEval (substituteVars (unwrapMarker expr) prev) = none) :
    applyInjections query [expr] prev =
      pyReplaceFirst query orig (injectionReplacement (evaluateInjection expr prev))
    ∧ injectionReplacement (evaluateInjection expr prev) = "1" := by
  refine ⟨by simp [applyInjections, hm], ?_⟩
  rcases h with ⟨q, hq, hlt⟩ | ⟨id, h1, h2, h3⟩ | hev
  · cases hv : evaluateInjection expr prev with
    | int i =>
      rw [hv] at hq
      simp only [valueNumQ, Option.some.injEq] at hq
      have hi : i < 1 := by
        rw [← hq] at hlt
        exact_mod_cast hlt
      simp only [injectionReplacement, pyRoundValue]
      exact clamp_literal_one i (by omega)
    | real r =>
      rw [hv] at hq
      simp only [valueNumQ, Option.some.injEq] at hq
      rw [← hq] at hlt
      simp only [injectionReplacement, pyRoundValue]
      exact clamp_literal_one _ (pyRound_le_one r hlt)
    | bool b =>
      rw [hv] at hq
      simp only [valueNumQ, Option.some.injEq] at hq
      cases b with
      | true =>
        rw [← hq] at hlt
        norm_num at hlt
      | false =>
        simp only [injectionReplacement, pyRoundValue]
        exact clamp_literal_one _ (by omega)
    | str s =>
      rw [hv] at hq
      simp [valueNumQ] at hq
  · have := evaluateInjection_of_missing expr prev
      (List.ne_nil_of_mem (mem_missingIdentifiers expr prev id h1 h2 h3))
    rw [this]
    with_unfolding_all decide
  · by_cases hmi : (missingIdentifiers expr prev).isEmpty
    · have : evaluateInjection expr prev = .int 1 := by
        simp [evaluateInjection, hmi, hev]
      rw [this]
      with_unfolding_all decide
    · simp only [Bool.not_eq_true] at hmi
      have : evaluateInjection expr prev = .int 1 := by
        simp [evaluateInjection, hmi]
      rw [this]
      with_unfolding_all decide

/-- Witness for C1 at a concrete input: `INJECT(0)` evaluates to the numeric
0 < 1 and the literal substituted for the marker in `LIMIT INJECT(0)` is
exactly `1`. -/
theorem c1_injection_clamping_witness :
    applyInjections "LIMIT INJECT(0)" ["INJECT(0)"] [] =
      pyReplaceFirst "LIMIT INJECT(0)" "INJECT(0)"
        (injectionReplacement (evaluateInjection "INJECT(0)" []))
    ∧ injectionReplacement (evaluateInjection "INJECT(0)" []) = "1" :=
  c1_injection_clamping "INJECT(0)" [] "LIMIT INJECT(0)" "INJECT(0)"
    (by with_unfolding_all decide)
    (Or.inl ⟨0, by with_unfolding_all decide, by norm_num⟩)

/-- Lookup after a dict insert: the inserted key reads the new value, other
keys read the old dict. -/
theorem dictLookup_dictInsert (b : Bindings) (k : String) (v : Value) (k' : String) :
    dictLookup (dictInsert b k v) k' = if k = k' then some v else dictLookup b k' := by
  induction b with
  | nil => simp [dictInsert, dictLookup]
  | cons kv rest ih =>
    obtain ⟨k1, v1⟩ := kv
    by_cases h1 : k1 = k
    · subst h1
      by_cases h2 : k1 = k'
      · subst h2
        simp [dictInsert, dictLookup]
      · simp [dictInsert, dictLookup, h2]
    · by_cases h2 : k1 = k'
      · subst h2
        have hk : k ≠ k1 := fun hx => h1 hx.symm
        simp [dictInsert, dictLookup, h1, hk, ih]
      · simp [dictInsert, dictLookup, h1, h2, ih]

/-- Folding a row's inserts over a base leaves absent keys untouched. -/
theorem rowFold_lookup_notmem (row : List (String × String)) (b : Bindings) (v : String)
    (hv : v ∉ row.map Prod.fst) :
    dictLookup (row.foldl (fun b kv => dictInsert b kv.1 (classifyRaw kv.2)) b) v =
      dictLookup b v := by
  induction row generalizing b with
  | nil => rfl
  | cons kv rest ih =>
    have hne : kv.1 ≠ v := by
      intro hh
      exact hv (by simp [hh])
    have hv' : v ∉ rest.map Prod.fst := by
      intro hh
      exact hv (by simp [hh])
    simp only [List.foldl_cons]
    rw [ih _ hv', dictLookup_dictInsert, if_neg hne]

/-- Folding a row's inserts binds every variable of the row to the classified
cell value (when the row's keys are distinct, as Python dict keys are). -/
theorem rowFold_lookup_mem (row : List (String × String)) (b : Bindings) (v raw : String)
    (hnd : (row.map Prod.fst).Nodup) (hmem : (v, raw) ∈ row) :
    dictLookup (row.foldl (fun b kv => dictInsert b kv.1 (classifyRaw kv.2)) b) v =
      some (classifyRaw raw) := by
  induction row generalizing b with
  | nil => cases hmem
  | cons kv rest ih =>
    have hnd' : kv.1 ∉ rest.map Prod.fst ∧ (rest.map Prod.fst).Nodup := by
      rw [List.map_cons] at hnd
      exact List.nodup_cons.mp hnd
    rcases List.mem_cons.mp hmem with heq | hmem'
    · have hv' : v ∉ rest.map Prod.fst := by
        have hh := hnd'.1
        rw [← heq] at hh
        exact hh
      simp only [List.foldl_cons]
      rw [rowFold_lookup_notmem _ _ _ hv', ← heq]
      simp [dictLookup_dictInsert]
    · simp only [List.foldl_cons]
      exact ih _ hnd'.2 hmem'

/-- C5: (i) the executor's recursion merges a step's response into the
bindings before the next step is dispatched; (ii) on a tabular response with
rows, every variable of the first row reads back its classified value after
the merge, regardless of what an earlier step had bound to that name
(overwrite on collision); (iii) a boolean response binds the key `boolean`;
(iv, v) the classified value is an integer exactly when the raw text parses
as a whole real, a real when it parses as a non-whole real, and the text
itself otherwise. -/
theorem c5_bindings_merge :
    (∀ (tsr : Triplestore) (idx : Nat) (q : QueryInfo) (rest : List QueryInfo)
        (prev : Bindings) (fr : Option Response) (r : Response),
        tsr idx (applyInjections q.query q.inject_params prev) = .ok r →
        execSeq tsr idx (q :: rest) prev fr =
          execSeq tsr (idx + 1) rest (mergeResponse prev r) (some r))
    ∧ (∀ (prev : Bindings) (row : List (String × String))
        (rows : List (List (String × String))) (v raw : String),
        (row.map Prod.fst).Nodup → (v, raw) ∈ row →
        dictLookup (mergeResponse prev (Response.tabular (row :: rows))) v =
          some (classifyRaw raw))
    ∧ (∀ (prev : Bindings) (b : Bool),
        dictLookup (mergeResponse prev (Response.boolean b)) "boolean" =
          some (Value.bool b))
    ∧ (∀ (raw : String) (q : Rat), parsePyFloat raw = some q →
        classifyRaw raw = if q.den = 1 then Value.int q.num else Value.real q)
    ∧ (∀ raw : String, parsePyFloat raw = none → classifyRaw raw = Value.str raw) := by
  refine ⟨?_, ?_, ?_, ?_, ?_⟩
  · intro tsr idx q rest prev fr r h
    simp [execSeq, h]
  · intro prev row rows v raw hnd hmem
    simpa [mergeResponse] using rowFold_lookup_mem row prev v raw hnd hmem
  · intro prev b
    simp [mergeResponse, dictLookup_dictInsert]
  · intro raw q h
    simp [classifyRaw, h]
  · intro raw h
    simp [classifyRaw, h]

/-- Witness for C5 at concrete inputs: the single step's response row binds
`n` to the integer 412 before the (empty) remainder of the plan runs. -/
theorem c5_bindings_merge_witness :
    execSeq tsrOneRow 0 [⟨"SELECT n", []⟩] [] none =
      execSeq tsrOneRow 1 []
        (mergeResponse [] (Response.tabular [[("n", "412")]]))
        (some (Response.tabular [[("n", "412")]]))
    ∧ dictLookup (mergeResponse [] (Response.tabular [[("n", "412")]])) "n" =
        some (classifyRaw "412")
    ∧ classifyRaw "412" = Value.int 412 :=
  ⟨c5_bindings_merge.1 tsrOneRow 0 ⟨"SELECT n", []⟩ [] [] none
      (Response.tabular [[("n", "412")]]) rfl,
   c5_bindings_merge.2.1 [] [("n", "412")] [] "n" "412" (by decide) (by decide),
   by with_unfolding_all decide⟩

/-- The multiplexer run, at any cursor position: chunks pass through in order
and the heartbeats are the rotation starting at the cursor, one per
timeout. -/
theorem muxRun_spec (es : List MuxEvent) (c : Nat) :
    muxChunks (muxRun es c) = eventChunks es
    ∧ muxHeartbeats (muxRun es c) =
        (List.range (countTimeouts es)).map
          (fun i => thinkingMessages.getD ((c + i) % thinkingMessages.length) "") := by
  induction es generalizing c with
  | nil => simp [muxRun, muxChunks, muxHeartbeats, eventChunks, countTimeouts]
  | cons e es ih =>
    cases e with
    | chunk s =>
      have h := ih c
      simp [muxRun, muxChunks, muxHeartbeats, eventChunks, countTimeouts, h.1, h.2]
    | timeout =>
      have h := ih (c + 1)
      refine ⟨by simpa [muxRun, muxChunks, eventChunks] using h.1, ?_⟩
      simp only [muxRun, muxHeartbeats, countTimeouts, h.2]
      rw [List.range_succ_eq_map, List.map_cons, List.map_map]
      congr 1
      apply List.map_congr_left
      intro a _
      have hx : c + 1 + a = c + (a + 1) := by omega
      simp only [Function.comp_apply, hx]

/-- C6: over any trace of wait events (a `timeout` event marks the stall
window elapsing with no downstream emission; a chunk arrival resets the stall
clock, which the event alphabet encodes), the multiplexer forwards the
upstream chunks in order with none dropped or duplicated, emits exactly one
heartbeat per stall expiry, drawn from the fixed eight-message rotation in
listed order starting with `Analyzing your query deeply` and wrapping
around, as `status: ` frames; the default stall window is 300 seconds. -/
theorem c6_stream_mux (es : List MuxEvent) :
    muxChunks (muxRun es 0) = eventChunks es
    ∧ muxHeartbeats (muxRun es 0) =
        (List.range (countTimeouts es)).map
          (fun i => thinkingMessages.getD (i % thinkingMessages.length) "")
    ∧ thinkingMessages.length = 8
    ∧ thinkingMessages.getD 0 "" = "status: Analyzing your query deeply\n"
    ∧ (∀ m ∈ thinkingMessages, strStarts m "status: " = true)
    ∧ defaultTimeoutSeconds = 300 := by
  refine ⟨(muxRun_spec es 0).1, ?_, by decide, by decide, by decide, rfl⟩
  have h := (muxRun_spec es 0).2
  simpa using h

/-- C9 (amended): every step the legacy cache parser produces records exactly
the matches of the pattern `INJECT\([^)]+\)` in that step's body as its
injection markers — which captures plain `INJECT(...)` occurrences only, not
`INJECT_FROM_PREVIOUS(...)` ones. -/
theorem c9_legacy_markers (text : String) (q : QueryInfo)
    (h : q ∈ parseCachedSequentialSparql text) :
    q.inject_params = injectFindAll q.query := by
  unfold parseCachedSequentialSparql at h
  rw [List.mem_filterMap] at h
  obtain ⟨p, _, hf⟩ := h
  dsimp only at hf
  split at hf
  · exact absurd hf (by simp)
  · rw [Option.some.injEq] at hf
    rw [← hf]

/-- C9 counterexample: a legacy cache entry whose single step body contains
an `INJECT_FROM_PREVIOUS(...)` marker parses with an empty `inject_params`
list — the marker present in the body is not recorded, refuting the claim
that both marker forms are captured. -/
theorem c9_legacy_markers_counterexample :
    parseCachedSequentialSparql
        "---query 1---\nSELECT ?x WHERE data LIMIT INJECT_FROM_PREVIOUS(total)" =
      [⟨"SELECT ?x WHERE data LIMIT INJECT_FROM_PREVIOUS(total)", []⟩]
    ∧ hasSub "SELECT ?x WHERE data LIMIT INJECT_FROM_PREVIOUS(total)"
        "INJECT_FROM_PREVIOUS(total)" = true :=
  ⟨by with_unfolding_all decide, by with_unfolding_all decide⟩

/-- Witness for C9 at a concrete input: a plain `INJECT(...)` marker is
recorded for its step. -/
theorem c9_legacy_markers_witness :
    (QueryInfo.mk "SELECT A LIMIT INJECT(n)" ["INJECT(n)"]) ∈
      parseCachedSequentialSparql "---query 1---\nSELECT A LIMIT INJECT(n)"
    ∧ (QueryInfo.mk "SELECT A LIMIT INJECT(n)" ["INJECT(n)"]).inject_params =
        injectFindAll (QueryInfo.mk "SELECT A LIMIT INJECT(n)" ["INJECT(n)"]).query :=
  ⟨by with_unfolding_all decide,
   c9_legacy_markers "---query 1---\nSELECT A LIMIT INJECT(n)" _
     (by with_unfolding_all decide)⟩

/-- The cache writes of stage 3 are exactly those passed in. -/
theorem stage3_cacheWrites (env : PipelineEnv) (fpre : List String)
    (writes : List (String × String)) (r : Option Response) (sq : String) :
    (stage3 env fpre writes r sq).cacheWrites = writes := by
  rcases h : env.contextualizeSetup with m | chunks <;> simp [stage3, h]

/-- Stage 3 always ends with the terminal `data: [DONE]` frame. -/
theorem stage3_last (env : PipelineEnv) (fpre : List String)
    (writes : List (String × String)) (r : Option Response) (sq : String) :
    (stage3 env fpre writes r sq).frames.getLast? = some data_done := by
  rcases h : env.contextualizeSetup with m | chunks <;>
    simp [stage3, h, ← List.cons_append, ← List.append_assoc, List.getLast?_concat]

/-- C2 (amended): a transport error in any step of a sequential plan aborts
the executor (the error propagates without the remaining steps being
dispatched), but the pipeline does not yield the no-data frame: it clears the
sequential flag and falls through to contextualization with null results, the
stream ending with `data: [DONE]` after either contextualized chunks over
null results or an error frame. -/
theorem c2_transport_fallthrough :
    (∀ (tsr : Triplestore) (idx : Nat) (q : QueryInfo) (qs : List QueryInfo)
        (prev : Bindings) (fr : Option Response) (e : TransportError),
        tsr idx (applyInjections q.query q.inject_params prev) = .error e →
        execSeq tsr idx (q :: qs) prev fr = .error e)
    ∧ (∀ (env : PipelineEnv) (qs : List QueryInfo) (f1 : List String) (e : TransportError),
        env.cacheExc = none →
        stage1Classify env.cached env.llm = (Stage1.sequential qs, f1) →
        execSeq env.tsr 0 qs [] none = .error e →
        responseStream env =
          stage3 env (processing_query :: f1 ++ [executing_query]) [] none ""
        ∧ (responseStream env).frames.getLast? = some data_done) := by
  constructor
  · intro tsr idx q qs prev fr e h
    simp [execSeq, h]
  · intro env qs f1 e hexc hs1 hE
    have hres : responseStream env =
        stage3 env (processing_query :: f1 ++ [executing_query]) [] none "" := by
      simp [responseStream, hexc, hs1, hE]
    exact ⟨hres, by rw [hres]; exact stage3_last env _ [] none ""⟩

/-- C2 counterexample: a cached sequential plan whose only step fails with a
transport error produces no no-data frame and does emit a contextualized
answer chunk — the stream is `processing, executing, processing-results,
chunk, done`, refuting the claimed `no_data + DONE` abort. -/
theorem c2_transport_counterexample :
    (responseStream envSeqTransport).frames =
      [processing_query, executing_query, processing_results, "ans\n", data_done]
    ∧ envSeqTransport.tsr 0 "SELECT x" = Except.error "transport"
    ∧ no_data ∉ (responseStream envSeqTransport).frames :=
  ⟨by with_unfolding_all decide, rfl, by with_unfolding_all decide⟩

/-- Witness for C2's amended statement at a concrete environment. -/
theorem c2_transport_fallthrough_witness :
    execSeq envSeqTransport.tsr 0 [⟨"SELECT x", []⟩] [] none = .error "transport"
    ∧ responseStream envSeqTransport =
        stage3 envSeqTransport (processing_query :: [] ++ [executing_query]) [] none ""
    ∧ (responseStream envSeqTransport).frames.getLast? = some data_done := by
  refine ⟨by with_unfolding_all exact rfl, ?_, ?_⟩
  · exact (c2_transport_fallthrough.2 envSeqTransport [⟨"SELECT x", []⟩] [] "transport"
      rfl (by with_unfolding_all decide) (by with_unfolding_all exact rfl)).1
  · exact (c2_transport_fallthrough.2 envSeqTransport [⟨"SELECT x", []⟩] [] "transport"
      rfl (by with_unfolding_all decide) (by with_unfolding_all exact rfl)).2

/-- C3 (amended): a sequential plan is written to the cache iff every step's
triplestore call returned without transport error AND the final response is
truthy with a non-zero result count (a plan whose steps all succeed but whose
final result is empty is not written); every write that does happen stores
the canonical `json.dumps` (JSON list) serialization of the plan, never the
legacy delimited form. -/
theorem c3_cache_write_iff (env : PipelineEnv) (qs : List QueryInfo) (f1 : List String)
    (hexc : env.cacheExc = none)
    (h1 : stage1Classify env.cached env.llm = (Stage1.sequential qs, f1)) :
    ((responseStream env).cacheWrites ≠ [] ↔
      ∃ r, execSeq env.tsr 0 qs [] none = .ok r ∧ respTruthy r = true ∧ resultCount r ≠ 0)
    ∧ (∀ w ∈ (responseStream env).cacheWrites, w.2 = jsonDumpsQueries qs) := by
  rcases hE : execSeq env.tsr 0 qs [] none with e | r
  · have hw : (responseStream env).cacheWrites = [] := by
      simp [responseStream, hexc, h1, hE, stage3_cacheWrites]
    rw [hw]
    constructor
    · simp only [ne_eq, not_true_eq_false, false_iff, not_exists]
      rintro r ⟨hr, -⟩
      exact Except.noConfusion hr
    · simp
  · by_cases ht : respTruthy r = true
    · by_cases hc : resultCount r = 0
      · have hw : (responseStream env).cacheWrites = [] := by
          simp [responseStream, hexc, h1, hE, ht, hc, stage3_cacheWrites]
        rw [hw]
        constructor
        · simp only [ne_eq, not_true_eq_false, false_iff, not_exists]
          rintro r' ⟨hr, -, hc'⟩
          injection hr with hr'
          subst hr'
          exact hc' hc
        · simp
      · have hw : (responseStream env).cacheWrites =
            [(env.userQuery, jsonDumpsQueries qs)] := by
          simp [responseStream, hexc, h1, hE, ht, hc, stage3_cacheWrites]
        rw [hw]
        constructor
        · simp only [ne_eq, List.cons_ne_self, not_false_eq_true, true_iff]
          exact ⟨r, rfl, ht, hc⟩
        · intro w hw'
          rw [List.mem_singleton] at hw'
          subst hw'
          rfl
    · have hf : respTruthy r = false := by
        rcases hb : respTruthy r with _ | _
        · rfl
        · exact absurd hb ht
      have hw : (responseStream env).cacheWrites = [] := by
        simp [responseStream, hexc, h1, hE, hf]
      rw [hw]
      constructor
      · simp only [ne_eq, not_true_eq_false, false_iff, not_exists]
        rintro r' ⟨hr, ht', -⟩
        injection hr with hr'
        subst hr'
        rw [hf] at ht'
        cases ht'
      · simp

/-- C3 counterexample: a one-step plan whose only step succeeds (no transport
error) with a truthy tabular response of zero rows is not written to the
cache — refuting the claimed "iff every step returned without transport
error". -/
theorem c3_cache_write_counterexample :
    envSeqEmptyRows.tsr 0 (applyInjections "SELECT x" [] []) =
      Except.ok (Response.tabular [])
    ∧ stage1Classify envSeqEmptyRows.cached envSeqEmptyRows.llm =
        (Stage1.sequential [⟨"SELECT x", []⟩], [])
    ∧ (responseStream envSeqEmptyRows).cacheWrites = [] :=
  ⟨rfl, by with_unfolding_all decide, by with_unfolding_all decide⟩

/-- Witness for C3's amended statement: with one successful row-bearing step
the plan is cached, serialized as the canonical JSON list. -/
theorem c3_cache_write_iff_witness :
    (responseStream envSeqOneRow).cacheWrites ≠ []
    ∧ (responseStream envSeqOneRow).cacheWrites =
        [("q", jsonDumpsQueries [⟨"SELECT x", []⟩])] := by
  refine ⟨?_, by with_unfolding_all decide⟩
  exact (c3_cache_write_iff envSeqOneRow [⟨"SELECT x", []⟩] [] rfl
    (by with_unfolding_all decide)).1.mpr
    ⟨Response.tabular [[("n", "412")]], by with_unfolding_all exact rfl, rfl, by decide⟩

/-- String append acts as list append on the character data. -/
theorem strData_append (a b : String) : (a ++ b).data = a.data ++ b.data := rfl

/-- A character list is a `listPre` prefix of itself followed by anything. -/
theorem listPre_append (p r : List Char) : listPre p (p ++ r) = true := by
  induction p with
  | nil => rfl
  | cons c cs ih => simp [listPre, ih]

/-- `strStarts` holds for an explicit prefix. -/
theorem strStarts_append (p s : String) : strStarts (p ++ s) p = true := by
  rw [strStarts, strData_append]
  exact listPre_append p.data s.data

/-- An orchestrator error frame starts with `Error: ` (capital E). -/
theorem errFrame_starts (m : String) :
    strStarts (errFrame m) "Error: " = true := by
  have h : errFrame m = "Error: " ++ (m ++ "\n" ++ "\n") := by
    simp [errFrame, statusError, String.append_assoc]
  rw [h]
  exact strStarts_append "Error: " (m ++ "\n" ++ "\n")

/-- C7 (amended): once the stream has begun no exception escapes — the
response stream is a total function of its environment — and every
orchestrator-level failure is serialized in-stream with the prefix `Error: `
(capital E, not the claimed `error: `) followed by the terminal
`data: [DONE]` frame: an exception before stage 1 yields exactly the
unexpected-error frame plus DONE, and a contextualization-setup failure makes
stage 3 emit the generating-answer error frame plus DONE; the HTTP status of
the streaming response stays 200. -/
theorem c7_error_frames (env : PipelineEnv) (m : String) :
    (env.cacheExc = some m →
      (responseStream env).frames =
        [processing_query, errFrame ("Unexpected error: " ++ m), data_done])
    ∧ (∀ (fpre : List String) (writes : List (String × String)) (r : Option Response)
        (sq : String), env.contextualizeSetup = .error m →
        (stage3 env fpre writes r sq).frames =
          fpre ++ [processing_results, errFrame ("Error generating answer: " ++ m),
            data_done])
    ∧ strStarts (errFrame ("Unexpected error: " ++ m)) "Error: " = true
    ∧ strStarts (errFrame ("Error generating answer: " ++ m)) "Error: " = true
    ∧ streamingStatusCode = 200 := by
  refine ⟨?_, ?_, errFrame_starts _, errFrame_starts _, rfl⟩
  · intro h
    simp [responseStream, h]
  · intro fpre writes r sq h
    simp [stage3, h]

/-- C7 counterexample: a pipeline failure (`boom` raised before stage 1) is
serialized as `Error: Unexpected error: boom` — no frame of the stream
carries the claimed lowercase `error: ` prefix. -/
theorem c7_error_prefix_counterexample :
    envOuterBoom.cacheExc = some "boom"
    ∧ (responseStream envOuterBoom).frames =
        [processing_query, "Error: Unexpected error: boom\n\n", data_done]
    ∧ (responseStream envOuterBoom).frames.filter
        (fun f => strStarts f "error: ") = [] :=
  ⟨rfl, by with_unfolding_all decide, by with_unfolding_all decide⟩

/-- Witness for C7's amended statement at concrete environments: the outer
handler's frame sequence and stage 3's error frame sequence. -/
theorem c7_error_frames_witness :
    (responseStream envOuterBoom).frames =
      [processing_query, errFrame ("Unexpected error: " ++ "boom"), data_done]
    ∧ (stage3 envCtxBoom [processing_query] [] none "").frames =
        [processing_query] ++ [processing_results,
          errFrame ("Error generating answer: " ++ "ctxfail"), data_done] :=
  ⟨(c7_error_frames envOuterBoom "boom").1 rfl,
   (c7_error_frames envCtxBoom "ctxfail").2.1 [processing_query] [] none "" rfl⟩

/-- C8 (amended): a language-model response that does not parse as a
sequential plan is classified Single with the extracted SPARQL as body only
when it contains the substring `SELECT`; a response without `SELECT` — even
one containing the top-level forms `ASK`, `CONSTRUCT` or `DESCRIBE` — is
classified empty (Single with an empty body) and triggers the no-data path
(no-data frame then `data: [DONE]`). -/
theorem c8_classification :
    (∀ raw : String, hasSub raw "SELECT" = false →
      stage1Classify none (Except.ok raw) = (Stage1.single "", [generating_sparql]))
    ∧ (∀ (raw s : String) (qs : List QueryInfo), hasSub raw "SELECT" = true →
        detectAndParseSparql raw = (false, qs, s) →
        stage1Classify none (Except.ok raw) = (Stage1.single s, [generating_sparql]))
    ∧ (∀ (env : PipelineEnv) (raw : String), env.cacheExc = none → env.cached = none →
        env.llm = .ok raw → hasSub raw "SELECT" = false →
        (responseStream env).frames =
          [processing_query, generating_sparql, no_data, data_done]) := by
  refine ⟨?_, ?_, ?_⟩
  · intro raw h
    simp [stage1Classify, h]
  · intro raw s qs h hd
    simp [stage1Classify, h, hd]
  · intro env raw hexc hcached hllm h
    simp [responseStream, hexc, stage1Classify, hcached, hllm, h]

/-- C8 counterexample: the response `ASK WHETHER ANYTHING EXISTS` contains
the top-level form `ASK` (the spec-modelled classifier extracts it as a
Single body), but the pipeline's `SELECT`-substring gate classifies it as
empty and the stream takes the no-data path instead of executing it. -/
theorem c8_classification_counterexample :
    hasSub "ASK WHETHER ANYTHING EXISTS" "ASK" = true
    ∧ detectAndParseSparql "ASK WHETHER ANYTHING EXISTS" =
        (false, [], "ASK WHETHER ANYTHING EXISTS")
    ∧ stage1Classify none (Except.ok "ASK WHETHER ANYTHING EXISTS") =
        (Stage1.single "", [generating_sparql])
    ∧ (responseStream envAskOnly).frames =
        [processing_query, generating_sparql, no_data, data_done] :=
  ⟨by with_unfolding_all decide, by with_unfolding_all decide,
   by with_unfolding_all decide, by with_unfolding_all decide⟩

/-- Witness for C8's amended statement at concrete inputs. -/
theorem c8_classification_witness :
    stage1Classify none (Except.ok "NOTHING HERE") =
      (Stage1.single "", [generating_sparql])
    ∧ stage1Classify none (Except.ok "SELECT X") =
        (Stage1.single "SELECT X", [generating_sparql])
    ∧ (responseStream envAskOnly).frames =
        [processing_query, generating_sparql, no_data, data_done] :=
  ⟨c8_classification.1 "NOTHING HERE" (by with_unfolding_all decide),
   c8_classification.2.1 "SELECT X" "SELECT X" [] (by with_unfolding_all decide)
     (by with_unfolding_all decide),
   c8_classification.2.2 envAskOnly "ASK WHETHER ANYTHING EXISTS" rfl rfl rfl
     (by with_unfolding_all decide)⟩

end Cap
